import Mathlib

/-!
Shallow embedding of the provisioning, certificate and process-supervision
core of the nebula-gui backend (src/backend/api/client_setup.py,
src/backend/api/process.py, src/backend/core/nebula_manager.py,
src/backend/core/cert_manager.py), together with theorems settling the
specification claims about it.

Times are abstract natural-number instants (the code compares
`datetime.utcnow()` against a stored expiry with strict `>`).  External
effects (the PKI tool, `os.kill`, `subprocess.Popen`) are parameters of the
embedded functions: each function receives the outcome the outside world
would produce and the theorems quantify over those outcomes.
-/

deriving instance DecidableEq for Except

namespace NebulaGui

/-- Payload stored for a provisioning token
(`token_data` dict written in `provision_client_device`). -/
structure TokenData where
  device_name : String
  device_type : String
  ip_address : String
  ca_id : Nat
  user_id : Nat
  expires_at : Nat
  auto_connect : Bool
deriving DecidableEq

/-- The token store: the `/tmp/nebula-tokens/` directory, one JSON file per
token, keyed by the token string. -/
abbrev TokenStore := List (String × TokenData)

/-- Reading a token file: `Path(f"/tmp/nebula-tokens/TOK.json")` exists plus
`json.loads(token_file.read_text())`. -/
def lookupToken (s : TokenStore) (t : String) : Option TokenData :=
  (List.find? (fun p => p.1 == t) s).map (fun p => p.2)

/-- `token_file.unlink()`: the token file is removed from the store. -/
def removeToken (s : TokenStore) (t : String) : TokenStore :=
  List.filter (fun p => p.1 != t) s

/-- A row of the `certificates` table (fields set by the code under
verification). -/
structure Certificate where
  id : Nat
  name : String
  cert_type : String
  ip_address : String
  groups : String
  is_ca : Bool
  duration_hours : Nat
  public_key : String
  private_key : String
  created_by : Nat
  expires_at : Nat
deriving DecidableEq

/-- Result of `cert_manager.sign_certificate` as consumed by
`download_client_package` (`result["cert"]`, `result["key"]`). -/
structure SignResult where
  cert : String
  key : String
deriving DecidableEq

/-- HTTP error raised by the client-setup endpoints: 404, 410 or 500 with a
detail string. -/
inductive RedeemError where
  | notFound (detail : String)
  | gone (detail : String)
  | serverError (detail : String)
deriving DecidableEq

/-- HTTP status code of each error kind (404_NOT_FOUND, 410_GONE,
500_INTERNAL_SERVER_ERROR). -/
def statusCode : RedeemError → Nat
  | RedeemError.notFound _ => 404
  | RedeemError.gone _ => 410
  | RedeemError.serverError _ => 500

/-- `GET /client-setup/download/TOK` (`download_client_package`):
check the token file exists, parse it, reject a past expiry (deleting the
file), look up the CA row, sign, commit the new certificate row, delete the
token file, return the package.  `now` is `datetime.utcnow()`, `sign` the
outcome of the external signing call, `newId` the primary key the database
assigns to the inserted row.  Returns the HTTP outcome, the token store and
the certificate table afterwards. -/
def download_client_package (now : Nat) (store : TokenStore) (db : List Certificate)
    (sign : Except String SignResult) (tok : String) (newId : Nat) :
    Except RedeemError Unit × TokenStore × List Certificate :=
  match lookupToken store tok with
  | none => (Except.error (RedeemError.notFound "Invalid or expired token"), store, db)
  | some td =>
    if td.expires_at < now then
      (Except.error (RedeemError.gone "Token expired"), removeToken store tok, db)
    else
      match List.find? (fun c => c.id == td.ca_id) db with
      | none => (Except.error (RedeemError.notFound "CA certificate not found"), store, db)
      | some _ =>
        match sign with
        | Except.error e =>
          (Except.error (RedeemError.serverError ("Failed to create certificate: " ++ e)),
            store, db)
        | Except.ok r =>
          (Except.ok (), removeToken store tok,
            db ++ [{ id := newId, name := td.device_name, cert_type := "host",
                     ip_address := td.ip_address, groups := "clients", is_ca := false,
                     duration_hours := 8760, public_key := r.cert, private_key := r.key,
                     created_by := td.user_id, expires_at := now + 8760 }])

/-- `GET /client-setup/qr-code/TOK` (`generate_qr_code_for_token`): only
checks that the token file exists, then streams a QR image; the store is
never modified and the payload is never read. -/
def generate_qr_code_for_token (store : TokenStore) (tok : String) :
    Except RedeemError Unit × TokenStore :=
  match lookupToken store tok with
  | none => (Except.error (RedeemError.notFound "Invalid or expired token"), store)
  | some _ => (Except.ok (), store)

/-- Python `s.split(sep)` for a one-character separator, on the character
list of the string: splits at every occurrence of `sep`, keeping empty
fields, exactly as `str.split` does. -/
def splitOnChar (sep : Char) : List Char → List (List Char)
  | [] => [[]]
  | c :: cs =>
    let r := splitOnChar sep cs
    if c == sep then [] :: r else (c :: r.headD []) :: r.tail

/-- `int(s)` on a decimal digit string. -/
def natOfDigits (cs : List Char) : Nat :=
  List.foldl (fun acc c => acc * 10 + (c.toNat - 48)) 0 cs

/-- `int(last_cert.ip_address.split(".")[3].split("/")[0])`: the host octet
of a stored address string. -/
def hostOctet (ip : String) : Nat :=
  natOfDigits (List.getD (splitOnChar '/' (List.getD (splitOnChar '.' ip.data) 3 [])) 0 [])

/-- Whether one character list is an initial segment of another. -/
def charPrefix : List Char → List Char → Bool
  | [], _ => true
  | _ :: _, [] => false
  | p :: ps, c :: cs => p == c && charPrefix ps cs

/-- The SQL pattern `Certificate.ip_address.like("192.168.100.%")`: the
address starts with the pool prefix. -/
def inPoolPrefix (ip : String) : Bool :=
  charPrefix "192.168.100.".data ip.data

/-- The SQL query `filter(Certificate.ip_address.like("192.168.100.%"))
.order_by(Certificate.id.desc()).first()`: among the rows whose address
starts with the pool prefix, the one with the greatest id. -/
def lastPoolCert (db : List Certificate) : Option Certificate :=
  List.foldl
    (fun acc c =>
      match acc with
      | none => some c
      | some b => if b.id < c.id then some c else some b)
    none
    (List.filter (fun c => inPoolPrefix c.ip_address) db)

/-- The auto-assignment branch of `provision_client_device`: take the most
recently issued (highest-id) certificate in the pool, add one to its host
octet; an empty result (or an empty stored address) yields `.10`. -/
def autoAssignIp (db : List Certificate) : String :=
  match lastPoolCert db with
  | some c =>
    if c.ip_address == "" then "192.168.100.10/24"
    else "192.168.100." ++ toString (hostOctet c.ip_address + 1) ++ "/24"
  | none => "192.168.100.10/24"

/-- `if not provision_data.ip_address:` — the address a provisioning request
ends up with: the requested one when non-empty, otherwise the auto-assigned
one. -/
def provisionIpAddress (requested : String) (db : List Certificate) : String :=
  if requested == "" then autoAssignIp db else requested

/-- A host certificate row with the given id and address (other columns as
`download_client_package` writes them). -/
def mkHostCert (i : Nat) (ip : String) : Certificate :=
  { id := i, name := "dev", cert_type := "host", ip_address := ip, groups := "clients",
    is_ca := false, duration_hours := 8760, public_key := "", private_key := "",
    created_by := 1, expires_at := 0 }

/-- A pool whose issued host numbers are .10, .11, .12, issued in ascending
order (ids 1, 2, 3). -/
def inOrderPool : List Certificate :=
  [mkHostCert 1 "192.168.100.10/24", mkHostCert 2 "192.168.100.11/24",
   mkHostCert 3 "192.168.100.12/24"]

/-- A pool whose issued host numbers are also .10, .11, .12, but issued out
of order: .12 first (id 1), then .10 (id 2), then .11 (id 3). -/
def outOfOrderPool : List Certificate :=
  [mkHostCert 1 "192.168.100.12/24", mkHostCert 2 "192.168.100.10/24",
   mkHostCert 3 "192.168.100.11/24"]

/-- Concrete token used by witnesses: "laptop1" bound to .10, CA row 1,
expiring at instant 100. -/
def wTd : TokenData :=
  { device_name := "laptop1", device_type := "linux", ip_address := "192.168.100.10/24",
    ca_id := 1, user_id := 7, expires_at := 100, auto_connect := true }

/-- Concrete one-entry token store used by witnesses. -/
def wStore : TokenStore := [("tok1", wTd)]

/-- Concrete CA row with id 1 used by witnesses. -/
def wCa : Certificate :=
  { id := 1, name := "home", cert_type := "ca", ip_address := "", groups := "",
    is_ca := true, duration_hours := 87600, public_key := "CAPEM", private_key := "CAKEY",
    created_by := 7, expires_at := 100000 }

/-- Concrete certificate table used by witnesses. -/
def wDb : List Certificate := [wCa]

/-- Unix signals the supervisor may send. -/
inductive Signal where
  | sigterm
  | sigkill
deriving DecidableEq

/-- The OS-level situation `NebulaManager.stop_nebula` acts on: whether a
process with the target pid exists, and whether that process would exit in
response to SIGTERM within any bounded wait. -/
structure ProcState where
  alive : Bool
  exitsOnTerm : Bool
deriving DecidableEq

/-- `NebulaManager.stop_nebula(pid)` (nebula_manager.py lines 328-345):
`os.kill(pid, signal.SIGTERM)` then `return True`; a `ProcessLookupError`
(no such process) returns `False`.  The second component records the
signals sent. -/
def stop_nebula (p : ProcState) : Bool × List Signal :=
  if p.alive then (true, [Signal.sigterm]) else (false, [])

/-- Modelled from the spec: `stop(name)` of the Process Supervisor sends a
graceful termination signal, polls for exit up to 10 × 1s, escalates to a
forceful kill if the process has not exited, and fails (`none` =
NotRunning) when no process is running.  Used only as the comparison point
for the refinement claim about `stop_nebula`. -/
def stopDaemonSpec (p : ProcState) : Option (List Signal) :=
  if p.alive = false then none
  else if p.exitsOnTerm then some [Signal.sigterm]
  else some [Signal.sigterm, Signal.sigkill]

/-- Everything outside the program that `NebulaManager.start_nebula` depends
on: whether the config file exists, the outcome of `subprocess.Popen`
(a pid, or a raised exception), and whether the launched child would still
be alive one second after the launch. -/
structure LaunchWorld where
  configExists : Bool
  spawnResult : Except String Nat
  aliveAfterGrace : Bool
deriving DecidableEq

/-- `NebulaManager.start_nebula(config_path)` (nebula_manager.py lines
296-326): missing config raises; otherwise `Popen` and `return process.pid`
immediately. -/
def start_nebula (configPath : String) (w : LaunchWorld) : Except String Nat :=
  if w.configExists = false then
    Except.error ("Config file not found: " ++ configPath)
  else
    match w.spawnResult with
    | Except.ok pid => Except.ok pid
    | Except.error e => Except.error ("Failed to start Nebula: " ++ e)

/-- A row of the `nebula_configs` table as used by the start endpoint. -/
structure NebulaConfigRec where
  id : Nat
  name : String
deriving DecidableEq

/-- A row of the `nebula_processes` table as written by the start
endpoint. -/
structure NebulaProcessRec where
  pid : Nat
  config_name : String
  status : String
deriving DecidableEq

/-- Error raised by `POST /process/start`; `alreadyRunning` exists in the
error taxonomy but is never produced by the code. -/
inductive StartError where
  | configNotFound
  | alreadyRunning
  | launchFailed (detail : String)
deriving DecidableEq

/-- The database state the process endpoints act on. -/
structure ProcessDb where
  configs : List NebulaConfigRec
  processes : List NebulaProcessRec
deriving DecidableEq

/-- `POST /process/start` (`start_nebula_process`, process.py lines 35-71):
look up the config row by id (404 when absent), call the manager (`mgr` is
its outcome), and on success insert a new `NebulaProcess(pid, config_name,
status="running")` row and commit.  No check for an existing running
process is performed. -/
def start_nebula_process (db : ProcessDb) (configId : Nat) (mgr : Except String Nat) :
    Except StartError Nat × ProcessDb :=
  match List.find? (fun c => c.id == configId) db.configs with
  | none => (Except.error StartError.configNotFound, db)
  | some cfg =>
    match mgr with
    | Except.error e => (Except.error (StartError.launchFailed e), db)
    | Except.ok pid =>
      (Except.ok pid,
        { configs := db.configs,
          processes := db.processes ++ [{ pid := pid, config_name := cfg.name,
                                          status := "running" }] })

/-- Database with config "site-a" (id 1) and an already-running supervised
process record for it (pid 100). -/
def runningDb : ProcessDb :=
  { configs := [{ id := 1, name := "site-a" }],
    processes := [{ pid := 100, config_name := "site-a", status := "running" }] }

/-- Outcome of one invocation of the external `nebula-cert` tool:
completion with an exit code and captured stdout/stderr, or expiry of the
`subprocess.run` timeout. -/
inductive ToolOutcome where
  | completed (exitCode : Nat) (stdout stderr : String)
  | timedOut
deriving DecidableEq

/-- Error raised by the certificate managers, classified by the distinct
raise sites of the code: the CA-absence check, a non-zero tool exit
(wrapping its stderr), or the subprocess timeout. -/
inductive CertError where
  | caNotFound (msg : String)
  | invocationFailed (msg : String)
  | timeoutExpired (msg : String)
deriving DecidableEq

/-- Whether a result failed with the CA-absence error kind. -/
def isCaNotFoundErr : Except CertError (String × String) → Bool
  | Except.error (CertError.caNotFound _) => true
  | _ => false

/-- Whether a result failed with the timeout error kind. -/
def isTimeoutErr : Except CertError (String × String) → Bool
  | Except.error (CertError.timeoutExpired _) => true
  | _ => false

/-- An argument vector handed to `subprocess.run` together with its declared
timeout in seconds. -/
structure ToolCmd where
  args : List String
  timeoutSecs : Nat
deriving DecidableEq

/-- The world a `create_ca` call runs in: what the tool does, and the
contents of the files it leaves behind on success. -/
structure CaWorld where
  tool : ToolOutcome
  crtContent : String
  keyContent : String
deriving DecidableEq

/-- `["-groups", g]` repeated for each group (cert_manager.py sign loop). -/
def groupArgsEach (groups : List String) : List String :=
  List.foldr (fun g acc => ["-groups", g] ++ acc) [] groups

/-- `["-subnets", s]` repeated for each subnet (nebula_manager.py sign
loop). -/
def subnetArgs (subnets : List String) : List String :=
  List.foldr (fun s acc => ["-subnets", s] ++ acc) [] subnets

namespace NebulaManager

/-- The command `NebulaManager.create_ca` passes to `subprocess.run`
(nebula_manager.py lines 58-76): argument vector plus `timeout=30`. -/
def create_ca_cmd (bin certDir name : String) (durationHours : Nat)
    (groups : List String) : ToolCmd :=
  { args := [bin, "ca", "-name", name, "-duration", toString durationHours ++ "h",
             "-out-crt", certDir ++ "/" ++ name ++ ".crt",
             "-out-key", certDir ++ "/" ++ name ++ ".key"] ++
            (if groups.isEmpty then [] else ["-groups", String.intercalate "," groups]),
    timeoutSecs := 30 }

/-- Outcome dispatch of `NebulaManager.create_ca` (nebula_manager.py lines
70-98): timeout raises "CA creation timed out"; a non-zero exit raises
"CA creation failed: stderr", re-wrapped by the outer handler into
"Failed to create CA: ...". -/
def create_ca_run (w : CaWorld) : Except CertError (String × String) :=
  match w.tool with
  | ToolOutcome.timedOut => Except.error (CertError.timeoutExpired "CA creation timed out")
  | ToolOutcome.completed rc _ stderr =>
    if rc == 0 then Except.ok (w.crtContent, w.keyContent)
    else Except.error (CertError.invocationFailed
      ("Failed to create CA: CA creation failed: " ++ stderr))

/-- The world a `NebulaManager.sign_certificate` call runs in: whether the
CA files exist, what the tool does, and the signed files' contents. -/
structure SignWorld where
  caCrtExists : Bool
  caKeyExists : Bool
  tool : ToolOutcome
  crtContent : String
  keyContent : String
deriving DecidableEq

/-- The command `NebulaManager.sign_certificate` passes to `subprocess.run`
(nebula_manager.py lines 132-157): argument vector plus `timeout=30`. -/
def sign_cmd (bin certDir name ip caName : String) (durationHours : Nat)
    (groups subnets : List String) : ToolCmd :=
  { args := [bin, "sign", "-name", name, "-ip", ip,
             "-ca-crt", certDir ++ "/" ++ caName ++ ".crt",
             "-ca-key", certDir ++ "/" ++ caName ++ ".key",
             "-duration", toString durationHours ++ "h",
             "-out-crt", certDir ++ "/" ++ name ++ ".crt",
             "-out-key", certDir ++ "/" ++ name ++ ".key"] ++
            (if groups.isEmpty then [] else ["-groups", String.intercalate "," groups]) ++
            subnetArgs subnets,
    timeoutSecs := 30 }

/-- `NebulaManager.sign_certificate` (nebula_manager.py lines 100-179): the
CA-existence check raises "CA 'name' not found" before the tool is invoked;
otherwise the tool runs with timeout 30 and its outcome is dispatched as in
the code.  The second component records whether the external signer was
invoked. -/
def sign_certificate_run (caName : String) (w : SignWorld) :
    Except CertError (String × String) × Bool :=
  if (w.caCrtExists && w.caKeyExists) = false then
    (Except.error (CertError.caNotFound ("CA '" ++ caName ++ "' not found")), false)
  else
    match w.tool with
    | ToolOutcome.timedOut =>
      (Except.error (CertError.timeoutExpired "Certificate signing timed out"), true)
    | ToolOutcome.completed rc _ stderr =>
      if rc == 0 then (Except.ok (w.crtContent, w.keyContent), true)
      else (Except.error (CertError.invocationFailed
        ("Failed to sign certificate: Certificate signing failed: " ++ stderr)), true)

end NebulaManager

namespace CertificateManager

/-- The command `CertificateManager.create_ca` passes to `subprocess.run`
(cert_manager.py lines 46-55): argument vector plus `timeout=30`. -/
def create_ca_cmd (bin certDir name : String) (durationHours : Nat) : ToolCmd :=
  { args := [bin, "ca", "-name", name, "-duration", toString durationHours ++ "h",
             "-out-crt", certDir ++ "/" ++ name ++ ".crt",
             "-out-key", certDir ++ "/" ++ name ++ ".key"],
    timeoutSecs := 30 }

/-- Outcome dispatch of `CertificateManager.create_ca` (cert_manager.py
lines 40-76): timeout raises "CA creation timed out"; a non-zero exit
raises "Failed to create CA: stderr", re-wrapped into
"Error creating CA: ...". -/
def create_ca_run (w : CaWorld) : Except CertError (String × String) :=
  match w.tool with
  | ToolOutcome.timedOut => Except.error (CertError.timeoutExpired "CA creation timed out")
  | ToolOutcome.completed rc _ stderr =>
    if rc == 0 then Except.ok (w.crtContent, w.keyContent)
    else Except.error (CertError.invocationFailed
      ("Error creating CA: Failed to create CA: " ++ stderr))

/-- The command `CertificateManager.sign_certificate` passes to
`subprocess.run` (cert_manager.py lines 92-108): argument vector plus
`timeout=30`; `-groups` is repeated per group. -/
def sign_cmd (bin certDir name ip caCrtPath caKeyPath : String) (durationHours : Nat)
    (groups : List String) : ToolCmd :=
  { args := [bin, "sign", "-name", name, "-ip", ip,
             "-ca-crt", caCrtPath, "-ca-key", caKeyPath,
             "-duration", toString durationHours ++ "h",
             "-out-crt", certDir ++ "/" ++ name ++ ".crt",
             "-out-key", certDir ++ "/" ++ name ++ ".key"] ++ groupArgsEach groups,
    timeoutSecs := 30 }

/-- `CertificateManager.sign_certificate` (cert_manager.py lines 78-129):
no CA-existence check of any kind — the tool is invoked unconditionally
with the given CA paths; timeout raises "Certificate signing timed out";
a non-zero exit raises "Failed to sign certificate: stderr", re-wrapped
into "Error signing certificate: ...".  The second component records that
the external signer was invoked. -/
def sign_certificate_run (w : NebulaManager.SignWorld) :
    Except CertError (String × String) × Bool :=
  match w.tool with
  | ToolOutcome.timedOut =>
    (Except.error (CertError.timeoutExpired "Certificate signing timed out"), true)
  | ToolOutcome.completed rc _ stderr =>
    if rc == 0 then (Except.ok (w.crtContent, w.keyContent), true)
    else (Except.error (CertError.invocationFailed
      ("Error signing certificate: Failed to sign certificate: " ++ stderr)), true)

end CertificateManager

/-- A signing world in which the referenced CA material is absent and the
tool, when invoked on the missing paths, exits non-zero complaining about
the missing file. -/
def missingCaSignWorld : NebulaManager.SignWorld :=
  { caCrtExists := false, caKeyExists := false,
    tool := ToolOutcome.completed 1 "" "open /tmp/nebula-certs/home.crt: no such file or directory",
    crtContent := "", keyContent := "" }

/-- Removing a token from the store makes lookups of it fail. -/
theorem lookupToken_removeToken (s : TokenStore) (t : String) :
    lookupToken (removeToken s t) t = none := by
  simp only [lookupToken, removeToken, Option.map_eq_none', List.find?_eq_none]
  intro p hp
  have h := (List.mem_filter.mp hp).2
  simpa using h

/-- Sequential at-most-once consumption (supporting theorem, not a claim):
after a successful `download_client_package` the token is gone from the
store, and every subsequent redemption of the same token (at any time, with
any database and any signing outcome) fails with the 404 NotFound error.
The atomicity the claim additionally asserts is refuted by
`redeem_race_code_bug` below. -/
theorem redeem_at_most_once (now now2 newId newId2 : Nat) (store : TokenStore)
    (db db2 : List Certificate) (sign sign2 : Except String SignResult) (tok : String)
    (h : (download_client_package now store db sign tok newId).1 = Except.ok ()) :
    lookupToken (download_client_package now store db sign tok newId).2.1 tok = none ∧
    (download_client_package now2 (download_client_package now store db sign tok newId).2.1
        db2 sign2 tok newId2).1 =
      Except.error (RedeemError.notFound "Invalid or expired token") := by
  cases hl : lookupToken store tok with
  | none => simp [download_client_package, hl] at h
  | some td =>
    by_cases he : td.expires_at < now
    · simp [download_client_package, hl, he] at h
    · cases hc : List.find? (fun c => c.id == td.ca_id) db with
      | none => simp [download_client_package, hl, he, hc] at h
      | some ca =>
        cases hs : sign with
        | error e => simp [download_client_package, hl, he, hc, hs] at h
        | ok r =>
          constructor
          · simp [download_client_package, hl, he, hc, hs, lookupToken_removeToken]
          · simp [download_client_package, hl, he, hc, hs, lookupToken_removeToken]

/-- The sequential at-most-once theorem at a concrete input: a fresh token
redeemed at instant 50 with a successful signing, then redeemed again. -/
theorem redeem_at_most_once_witness :
    (download_client_package 50 wStore wDb (Except.ok { cert := "CRT", key := "KEY" })
        "tok1" 2).1 = Except.ok () ∧
    (lookupToken (download_client_package 50 wStore wDb
        (Except.ok { cert := "CRT", key := "KEY" }) "tok1" 2).2.1 "tok1" = none ∧
     (download_client_package 60 (download_client_package 50 wStore wDb
          (Except.ok { cert := "CRT", key := "KEY" }) "tok1" 2).2.1
        wDb (Except.ok { cert := "CRT", key := "KEY" }) "tok1" 3).1 =
       Except.error (RedeemError.notFound "Invalid or expired token")) :=
  ⟨by decide,
   redeem_at_most_once 50 60 2 3 wStore wDb wDb
     (Except.ok { cert := "CRT", key := "KEY" })
     (Except.ok { cert := "CRT", key := "KEY" }) "tok1" (by decide)⟩

/-- Claim C3: redeeming a token whose stored expiry lies strictly in the
past fails with the 410 Gone "Token expired" error — a kind distinct from
the 404 NotFound — and removes the token from the store, so any later
redemption of the same token fails with NotFound. -/
theorem expired_redeem (now now2 newId newId2 : Nat) (store : TokenStore)
    (db db2 : List Certificate) (sign sign2 : Except String SignResult)
    (tok : String) (td : TokenData)
    (hl : lookupToken store tok = some td) (he : td.expires_at < now) :
    (download_client_package now store db sign tok newId).1 =
        Except.error (RedeemError.gone "Token expired") ∧
    statusCode (RedeemError.gone "Token expired") = 410 ∧
    statusCode (RedeemError.notFound "Invalid or expired token") = 404 ∧
    lookupToken (download_client_package now store db sign tok newId).2.1 tok = none ∧
    (download_client_package now2 (download_client_package now store db sign tok newId).2.1
        db2 sign2 tok newId2).1 =
      Except.error (RedeemError.notFound "Invalid or expired token") := by
  refine ⟨?_, rfl, rfl, ?_, ?_⟩ <;>
    simp [download_client_package, hl, he, lookupToken_removeToken]

/-- Witness for C3 at a concrete input: the token expiring at instant 100,
redeemed at instant 200 and then again at instant 300. -/
theorem expired_redeem_witness :
    lookupToken wStore "tok1" = some wTd ∧ wTd.expires_at < 200 ∧
    ((download_client_package 200 wStore wDb
          (Except.ok { cert := "CRT", key := "KEY" }) "tok1" 2).1 =
        Except.error (RedeemError.gone "Token expired") ∧
     statusCode (RedeemError.gone "Token expired") = 410 ∧
     statusCode (RedeemError.notFound "Invalid or expired token") = 404 ∧
     lookupToken (download_client_package 200 wStore wDb
          (Except.ok { cert := "CRT", key := "KEY" }) "tok1" 2).2.1 "tok1" = none ∧
     (download_client_package 300 (download_client_package 200 wStore wDb
            (Except.ok { cert := "CRT", key := "KEY" }) "tok1" 2).2.1
          wDb (Except.ok { cert := "CRT", key := "KEY" }) "tok1" 3).1 =
       Except.error (RedeemError.notFound "Invalid or expired token")) :=
  ⟨by decide, by decide,
   expired_redeem 200 300 2 3 wStore wDb wDb
     (Except.ok { cert := "CRT", key := "KEY" })
     (Except.ok { cert := "CRT", key := "KEY" }) "tok1" wTd (by decide) (by decide)⟩

/-- Claim C9: when certificate signing fails during redemption of a valid
(existing, unexpired, CA present) token, the endpoint fails with the 500
error wrapping the signing failure, the token store is unchanged (the token
stays redeemable) and the certificate table is unchanged (no row
committed). -/
theorem sign_failure_preserves_state (now newId : Nat) (store : TokenStore)
    (db : List Certificate) (tok : String) (td : TokenData) (ca : Certificate) (e : String)
    (hl : lookupToken store tok = some td) (he : ¬ td.expires_at < now)
    (hc : List.find? (fun c => c.id == td.ca_id) db = some ca) :
    download_client_package now store db (Except.error e) tok newId =
      (Except.error (RedeemError.serverError ("Failed to create certificate: " ++ e)),
        store, db) := by
  simp [download_client_package, hl, he, hc]

/-- Witness for C9 at a concrete input: a valid token at instant 50 whose
signing call fails. -/
theorem sign_failure_preserves_state_witness :
    lookupToken wStore "tok1" = some wTd ∧ ¬ wTd.expires_at < 50 ∧
    List.find? (fun c => c.id == wTd.ca_id) wDb = some wCa ∧
    download_client_package 50 wStore wDb (Except.error "boom") "tok1" 2 =
      (Except.error (RedeemError.serverError ("Failed to create certificate: " ++ "boom")),
        wStore, wDb) :=
  ⟨by decide, by decide, by decide,
   sign_failure_preserves_state 50 2 wStore wDb "tok1" wTd wCa "boom"
     (by decide) (by decide) (by decide)⟩

/-- Claim C10: the QR-code endpoint succeeds for every token whose file
exists — no expiry hypothesis is needed, so it holds even for a token whose
expiry is past — and it leaves the store untouched: the token file still
exists afterwards with the same payload. -/
theorem qr_code_ignores_expiry (store : TokenStore) (tok : String) (td : TokenData)
    (hl : lookupToken store tok = some td) :
    generate_qr_code_for_token store tok = (Except.ok (), store) ∧
    lookupToken (generate_qr_code_for_token store tok).2 tok = some td := by
  constructor <;> simp [generate_qr_code_for_token, hl]

/-- Witness for C10 at a concrete input: the token expiring at instant 100,
queried for a QR code when that expiry is already past. -/
theorem qr_code_ignores_expiry_witness :
    lookupToken wStore "tok1" = some wTd ∧ wTd.expires_at < 200 ∧
    (generate_qr_code_for_token wStore "tok1" = (Except.ok (), wStore) ∧
     lookupToken (generate_qr_code_for_token wStore "tok1").2 "tok1" = some wTd) :=
  ⟨by decide, by decide, qr_code_ignores_expiry wStore "tok1" wTd (by decide)⟩

/-- Claim C2 counterexample: a pool whose issued host numbers are exactly
.10, .11 and .12 but whose most recently issued certificate is .11 — the
code auto-assigns .12 (last issued + 1), not .13 (highest used + 1), because
the query orders by row id, not by host number. -/
theorem auto_assign_not_highest :
    List.map (fun c => hostOctet c.ip_address) outOfOrderPool = [12, 10, 11] ∧
    provisionIpAddress "" outOfOrderPool = "192.168.100.12/24" ∧
    provisionIpAddress "" outOfOrderPool ≠ "192.168.100.13/24" := by decide

/-- Claim C2 as amended: auto-assignment takes the host octet of the most
recently issued (highest-id) certificate in the pool and adds one; when the
pool was issued in ascending order .10, .11, .12 this yields .13, and an
empty pool yields the fixed starting address 192.168.100.10/24. -/
theorem auto_assign_amended (db : List Certificate) (c : Certificate)
    (h1 : lastPoolCert db = some c) (h2 : (c.ip_address == "") = false) :
    provisionIpAddress "" db =
      "192.168.100." ++ toString (hostOctet c.ip_address + 1) ++ "/24" ∧
    provisionIpAddress "" [] = "192.168.100.10/24" ∧
    provisionIpAddress "" inOrderPool = "192.168.100.13/24" := by
  refine ⟨?_, by decide, by decide⟩
  simp [provisionIpAddress, autoAssignIp, h1, h2]

/-- Witness for the amended C2 at a concrete input: the in-order pool, whose
highest-id certificate is .12. -/
theorem auto_assign_amended_witness :
    lastPoolCert inOrderPool = some (mkHostCert 3 "192.168.100.12/24") ∧
    ((mkHostCert 3 "192.168.100.12/24").ip_address == "") = false ∧
    (provisionIpAddress "" inOrderPool =
       "192.168.100." ++
         toString (hostOctet (mkHostCert 3 "192.168.100.12/24").ip_address + 1) ++ "/24" ∧
     provisionIpAddress "" [] = "192.168.100.10/24" ∧
     provisionIpAddress "" inOrderPool = "192.168.100.13/24") :=
  ⟨by decide, by decide,
   auto_assign_amended inOrderPool (mkHostCert 3 "192.168.100.12/24")
     (by decide) (by decide)⟩

/-- Claim C4 counterexample: a live process that never exits on SIGTERM —
`stop_nebula` sends only SIGTERM and reports success immediately, with no
polling and no SIGKILL escalation, while the claimed behaviour
(`stopDaemonSpec`) would escalate to SIGKILL. -/
theorem stop_no_escalation :
    stop_nebula { alive := true, exitsOnTerm := false } = (true, [Signal.sigterm]) ∧
    Signal.sigkill ∉ (stop_nebula { alive := true, exitsOnTerm := false }).2 ∧
    stopDaemonSpec { alive := true, exitsOnTerm := false } =
      some [Signal.sigterm, Signal.sigkill] := by decide

/-- Claim C4 as amended: `stop_nebula` sends a single SIGTERM and returns
success immediately — its outcome is independent of whether the process
would ever exit, it never sends SIGKILL — and when no process with the
given pid exists it sends nothing and returns failure. -/
theorem stop_nebula_amended : ∀ a b b' : Bool,
    stop_nebula { alive := a, exitsOnTerm := b } =
      stop_nebula { alive := a, exitsOnTerm := b' } ∧
    Signal.sigkill ∉ (stop_nebula { alive := a, exitsOnTerm := b }).2 ∧
    stop_nebula { alive := true, exitsOnTerm := b } = (true, [Signal.sigterm]) ∧
    stop_nebula { alive := false, exitsOnTerm := b } = (false, []) := by decide

/-- Claim C5 counterexample: a launch whose child exits immediately
(`aliveAfterGrace = false`) still returns a successful start with the pid —
`start_nebula` performs no grace-period liveness poll. -/
theorem start_no_grace_poll :
    start_nebula "/etc/nebula/configs/site-a.yaml"
        { configExists := true, spawnResult := Except.ok 42, aliveAfterGrace := false } =
      Except.ok 42 ∧
    ({ configExists := true, spawnResult := Except.ok 42, aliveAfterGrace := false } :
        LaunchWorld).aliveAfterGrace = false := ⟨rfl, rfl⟩

/-- Claim C5 as amended: `start_nebula` returns the pid as success
immediately after a successful `Popen` — its result is independent of
whether the child is still alive after any grace period — and fails only on
a missing config file or a launch exception. -/
theorem start_nebula_amended : ∀ (p : String) (c : Bool) (s : Except String Nat)
    (b b' : Bool) (pid : Nat),
    start_nebula p { configExists := c, spawnResult := s, aliveAfterGrace := b } =
      start_nebula p { configExists := c, spawnResult := s, aliveAfterGrace := b' } ∧
    start_nebula p { configExists := true, spawnResult := Except.ok pid,
                     aliveAfterGrace := b } = Except.ok pid ∧
    start_nebula p { configExists := false, spawnResult := s, aliveAfterGrace := b } =
      Except.error ("Config file not found: " ++ p) := by
  intro p c s b b' pid
  exact ⟨rfl, rfl, rfl⟩

/-- Claim C6 counterexample: starting config "site-a" while a running
supervised record for "site-a" (pid 100) already exists does not fail with
AlreadyRunning — it succeeds and appends a second running record with the
new pid. -/
theorem start_ignores_running :
    (start_nebula_process runningDb 1 (Except.ok 200)).1 = Except.ok 200 ∧
    (start_nebula_process runningDb 1 (Except.ok 200)).1 ≠
      Except.error StartError.alreadyRunning ∧
    (start_nebula_process runningDb 1 (Except.ok 200)).2.processes =
      [{ pid := 100, config_name := "site-a", status := "running" },
       { pid := 200, config_name := "site-a", status := "running" }] := by decide

/-- Claim C6 as amended: the start endpoint performs no running-process
check — its HTTP outcome is independent of the process table — and on a
successful launch it appends a new running record, leaving every existing
record (including a running one for the same name) unchanged in place. -/
theorem start_process_amended (cs : List NebulaConfigRec) (ps ps' : List NebulaProcessRec)
    (configId pid : Nat) (mgr : Except String Nat) (cfg : NebulaConfigRec)
    (h1 : List.find? (fun c => c.id == configId) cs = some cfg)
    (h2 : mgr = Except.ok pid) :
    (start_nebula_process { configs := cs, processes := ps } configId mgr).1 =
      (start_nebula_process { configs := cs, processes := ps' } configId mgr).1 ∧
    start_nebula_process { configs := cs, processes := ps } configId mgr =
      (Except.ok pid,
        { configs := cs,
          processes := ps ++ [{ pid := pid, config_name := cfg.name,
                                status := "running" }] }) := by
  subst h2
  exact ⟨by simp [start_nebula_process, h1], by simp [start_nebula_process, h1]⟩

/-- Witness for the amended C6 at a concrete input: the database that
already has a running "site-a" record. -/
theorem start_process_amended_witness :
    List.find? (fun c => c.id == 1) runningDb.configs =
      some { id := 1, name := "site-a" } ∧
    ((start_nebula_process { configs := runningDb.configs,
                             processes := runningDb.processes } 1 (Except.ok 200)).1 =
       (start_nebula_process { configs := runningDb.configs,
                               processes := [] } 1 (Except.ok 200)).1 ∧
     start_nebula_process { configs := runningDb.configs,
                            processes := runningDb.processes } 1 (Except.ok 200) =
       (Except.ok 200,
         { configs := runningDb.configs,
           processes := runningDb.processes ++
             [{ pid := 200, config_name := "site-a", status := "running" }] })) :=
  ⟨by decide,
   start_process_amended runningDb.configs runningDb.processes [] 1 200
     (Except.ok 200) { id := 1, name := "site-a" } (by decide) rfl⟩

/-- Claim C7 counterexample: with the CA material absent,
`CertificateManager.sign_certificate` still invokes the external signer and
fails with the stderr-wrapping invocation error, not with a CANotFound
error — no CA-absence check precedes the invocation. -/
theorem cm_sign_no_ca_check :
    missingCaSignWorld.caCrtExists = false ∧
    (CertificateManager.sign_certificate_run missingCaSignWorld).2 = true ∧
    isCaNotFoundErr (CertificateManager.sign_certificate_run missingCaSignWorld).1 = false ∧
    (CertificateManager.sign_certificate_run missingCaSignWorld).1 =
      Except.error (CertError.invocationFailed
        ("Error signing certificate: Failed to sign certificate: open /tmp/nebula-certs/home.crt: no such file or directory")) := by
  decide

/-- Claim C7 as amended: only `NebulaManager.sign_certificate` checks the CA
material before invoking the external signer — when either CA file is
absent it fails with the CANotFound error and the signer is never invoked —
while `CertificateManager.sign_certificate` (the one the provisioning
endpoint uses) performs no such check and always invokes the signer. -/
theorem sign_ca_check_amended : ∀ (n : String) (k : Bool) (t : ToolOutcome) (c kc : String),
    NebulaManager.sign_certificate_run n
        { caCrtExists := false, caKeyExists := k, tool := t,
          crtContent := c, keyContent := kc } =
      (Except.error (CertError.caNotFound ("CA '" ++ n ++ "' not found")), false) ∧
    NebulaManager.sign_certificate_run n
        { caCrtExists := k, caKeyExists := false, tool := t,
          crtContent := c, keyContent := kc } =
      (Except.error (CertError.caNotFound ("CA '" ++ n ++ "' not found")), false) ∧
    (CertificateManager.sign_certificate_run
        { caCrtExists := false, caKeyExists := k, tool := t,
          crtContent := c, keyContent := kc }).2 = true := by
  intro n k t c kc
  refine ⟨rfl, ?_, ?_⟩
  · cases k <;> rfl
  · cases t with
    | timedOut => rfl
    | completed rc o e =>
      simp only [CertificateManager.sign_certificate_run]
      split <;> rfl

/-- Claim C8: every invocation of the external certificate tool built by
`create_ca` and `sign_certificate` in both managers declares a 30-second
timeout; timeout expiry surfaces as the distinct timeout error kind, and a
non-zero tool exit surfaces as the invocation-failed kind whose message
wraps the tool's stderr text. -/
theorem cert_tool_timeout_and_stderr :
    ∀ (bin dir n ip caName caCrt caKey crt key stdout stderr : String)
      (d rc : Nat) (gs subs : List String) (e1 e2 : Bool),
    (NebulaManager.create_ca_cmd bin dir n d gs).timeoutSecs = 30 ∧
    (CertificateManager.create_ca_cmd bin dir n d).timeoutSecs = 30 ∧
    (NebulaManager.sign_cmd bin dir n ip caName d gs subs).timeoutSecs = 30 ∧
    (CertificateManager.sign_cmd bin dir n ip caCrt caKey d gs).timeoutSecs = 30 ∧
    NebulaManager.create_ca_run
        { tool := ToolOutcome.timedOut, crtContent := crt, keyContent := key } =
      Except.error (CertError.timeoutExpired "CA creation timed out") ∧
    CertificateManager.create_ca_run
        { tool := ToolOutcome.timedOut, crtContent := crt, keyContent := key } =
      Except.error (CertError.timeoutExpired "CA creation timed out") ∧
    (NebulaManager.sign_certificate_run caName
        { caCrtExists := true, caKeyExists := true, tool := ToolOutcome.timedOut,
          crtContent := crt, keyContent := key }).1 =
      Except.error (CertError.timeoutExpired "Certificate signing timed out") ∧
    (CertificateManager.sign_certificate_run
        { caCrtExists := e1, caKeyExists := e2, tool := ToolOutcome.timedOut,
          crtContent := crt, keyContent := key }).1 =
      Except.error (CertError.timeoutExpired "Certificate signing timed out") ∧
    NebulaManager.create_ca_run
        { tool := ToolOutcome.completed (rc + 1) stdout stderr,
          crtContent := crt, keyContent := key } =
      Except.error (CertError.invocationFailed
        ("Failed to create CA: CA creation failed: " ++ stderr)) ∧
    CertificateManager.create_ca_run
        { tool := ToolOutcome.completed (rc + 1) stdout stderr,
          crtContent := crt, keyContent := key } =
      Except.error (CertError.invocationFailed
        ("Error creating CA: Failed to create CA: " ++ stderr)) ∧
    (NebulaManager.sign_certificate_run caName
        { caCrtExists := true, caKeyExists := true,
          tool := ToolOutcome.completed (rc + 1) stdout stderr,
          crtContent := crt, keyContent := key }).1 =
      Except.error (CertError.invocationFailed
        ("Failed to sign certificate: Certificate signing failed: " ++ stderr)) ∧
    (CertificateManager.sign_certificate_run
        { caCrtExists := e1, caKeyExists := e2,
          tool := ToolOutcome.completed (rc + 1) stdout stderr,
          crtContent := crt, keyContent := key }).1 =
      Except.error (CertError.invocationFailed
        ("Error signing certificate: Failed to sign certificate: " ++ stderr)) ∧
    isTimeoutErr (NebulaManager.create_ca_run
        { tool := ToolOutcome.timedOut, crtContent := crt, keyContent := key }) = true ∧
    isTimeoutErr (NebulaManager.create_ca_run
        { tool := ToolOutcome.completed (rc + 1) stdout stderr,
          crtContent := crt, keyContent := key }) = false := by
  intro bin dir n ip caName caCrt caKey crt key stdout stderr d rc gs subs e1 e2
  exact ⟨rfl, rfl, rfl, rfl, rfl, rfl, rfl, rfl, rfl, rfl, rfl, rfl, rfl, rfl⟩

end NebulaGui
